import Mathlib

/-!
Shallow embedding of the Audit-AI core (audit_core package): hallucination
scoring, drift detection, the FastAPI audit middleware, the metrics tracker
and its reset/aggregation operations, together with theorems settling the
behavioural claims about them.

Numbers are modelled over `ℚ`: the Python code works with IEEE doubles, but
every constant involved (0.1, 0.2, 0.5, 0.6, 0.7, 0.8) and every operation
relevant to the claims (comparison, mean, clamp) is exact at the granularity
the claims speak about, so rationals are a faithful executable model.
External effects (the sentence-embedding model, the tokenizer, the process
clock, the file system) are threaded as explicit oracle parameters.
-/

namespace AuditCore

/-! ## Strings: Python `needle in hay`, `.lower()`, `re.findall(r'\b\w+\b', s)` -/

/-- Python substring containment `needle in hay`. -/
def strContains (hay needle : String) : Bool :=
  (List.range (hay.toList.length + 1)).any
    (fun i => needle.toList.isPrefixOf (hay.toList.drop i))

/-- Python `str.lower()` (ASCII fragment, which covers all inputs the claims
exercise). -/
def pyLower (s : String) : String := String.mk (s.toList.map Char.toLower)

/-- Python `\w` word character (ASCII fragment, which covers all inputs the
claims exercise). -/
def isWordChar (c : Char) : Bool := c.isAlphanum || c = '_'

/-- The list of words matched by `re.findall(r'\b\w+\b', s)`: maximal runs of
word characters. -/
def wordsOf (s : String) : List (List Char) :=
  (s.toList.splitOnP (fun c => !isWordChar c)).filter (fun w => w ≠ [])

/-! ## HallucinationDetector (src/audit_core/detection/hallucination.py) -/

/-- The fixed hedging lexicon `hallucination_indicators` from
`HallucinationDetector._heuristic_score`. -/
def hallucination_indicators : List String :=
  ["i\x27m not sure", "i don\x27t know", "i think", "perhaps", "probably",
   "it\x27s possible", "might be", "it\x27s likely", "it\x27s probable"]

/-- Lines 77-82 of hallucination.py: 0.1 added per lexicon phrase contained in
the lower-cased completion, then capped at 0.5. -/
def hesitationScore (completion_lower : String) : ℚ :=
  min (hallucination_indicators.foldl
        (fun acc ind => if strContains completion_lower ind then acc + 1/10 else acc) 0)
      (1/2)

/-- `HallucinationDetector._heuristic_score`.  `sim` is the result of the
sentence-embedding cosine similarity; `none` models the inner `except` branch
(embedding failure), which defaults the divergence to 0.5. -/
def heuristic_score (prompt completion : String) (sim : Option ℚ) : ℚ :=
  let prompt_lower := pyLower prompt
  let completion_lower := pyLower completion
  let hesitation_score := hesitationScore completion_lower
  let prompt_words := (wordsOf prompt_lower).dedup
  let completion_words := (wordsOf completion_lower).dedup
  let overlap_score : ℚ :=
    if prompt_words.length = 0 ∨ completion_words.length = 0 then 1/2
    else
      let common := (completion_words.filter (fun w => w ∈ prompt_words)).length
      let overlapRatio : ℚ := (common : ℚ) / (max 1 completion_words.length : ℕ)
      max 0 (7/10 - overlapRatio)
  let semantic_divergence : ℚ :=
    match sim with
    | some s => 1 - s
    | none => 1/2
  let weighted_sum :=
    semantic_divergence * (6/10) + hesitation_score * (2/10) + overlap_score * (2/10)
  max 0 (min 1 weighted_sum)

/-- `HallucinationDetector.score_hallucination`: the heuristic score, with any
internal exception (modelled by `exn`) caught and replaced by the default 0.5. -/
def score_hallucination (prompt completion : String) (sim : Option ℚ) (exn : Bool) : ℚ :=
  if exn then 1/2 else heuristic_score prompt completion sim

/-- `HallucinationDetector.get_fact_consistency`: the complement of the
hallucination score. -/
def get_fact_consistency (prompt completion : String) (sim : Option ℚ) (exn : Bool) : ℚ :=
  1 - score_hallucination prompt completion sim exn

/-! ## DriftDetector (src/audit_core/detection/drift.py) -/

/-- One entry of `current_window`: the dict built at lines 62-68 of drift.py. -/
structure MetricSample where
  hallucination_score : ℚ
  response_time_ms : ℚ
  token_count : Option ℚ
deriving Repr, DecidableEq

/-- `DriftDetector` state: `reference_stats` is the Python dict (metric name →
baseline mean) loaded from the reference file, modelled as an association
list; `{}` is the empty list. -/
structure DriftDetector where
  window_size : Nat
  reference_stats : List (String × ℚ)
  current_window : List MetricSample
deriving Repr, DecidableEq

/-- `dict.get(key, 0)` on the reference stats. -/
def refGet (stats : List (String × ℚ)) (key : String) : ℚ :=
  match stats.find? (fun kv => kv.fst = key) with
  | some kv => kv.snd
  | none => 0

/-- `pandas.Series.mean()` over an always-present column: `none` models the
NaN produced on an empty window (every comparison against NaN is false). -/
def meanOpt (xs : List ℚ) : Option ℚ :=
  if xs = [] then none else some (xs.sum / (xs.length : ℚ))

/-- Lines 70-74 of drift.py: append the sample, then pop the oldest entry when
the window exceeds `window_size`. -/
def pushSample (window_size : Nat) (w : List MetricSample) (s : MetricSample) :
    List MetricSample :=
  let w1 := w ++ [s]
  if window_size < w1.length then w1.tail else w1

/-- `DriftDetector._is_metric_drifting`; `current` is `none` when the window
mean is NaN, in which case both comparisons are false, exactly as in IEEE
arithmetic. -/
def is_metric_drifting (current : Option ℚ) (reference_value : ℚ)
    (threshold : ℚ) (is_time : Bool) : Bool :=
  if reference_value = 0 then false
  else
    match current with
    | none => false
    | some current_value =>
      if is_time then decide ((current_value - reference_value) / reference_value > threshold)
      else decide (|current_value - reference_value| / reference_value > threshold)

/-- `DriftDetector.detect_drift`: returns the drift flag together with the
updated detector state.  Note that lines 87-88 of the source also compute a
`token_count_mean` for the current window, but the returned flag (line 105)
is the disjunction of the hallucination-score and response-time tests only,
so that mean does not influence the result and is omitted here. -/
def detect_drift (d : DriftDetector) (hallucination_score : ℚ)
    (response_time_ms : ℚ) (token_count : Option ℚ) : Bool × DriftDetector :=
  let sample : MetricSample := ⟨hallucination_score, response_time_ms, token_count⟩
  let w := pushSample d.window_size d.current_window sample
  let d' : DriftDetector := { d with current_window := w }
  if w.length < d.window_size ∨ d.reference_stats = [] then (false, d')
  else
    let hallucination_drift := is_metric_drifting
      (meanOpt (w.map (fun s => s.hallucination_score)))
      (refGet d.reference_stats "hallucination_score_mean") (2/10) false
    let response_time_drift := is_metric_drifting
      (meanOpt (w.map (fun s => s.response_time_ms)))
      (refGet d.reference_stats "response_time_ms_mean") (5/10) true
    (hallucination_drift || response_time_drift, d')

/-- A fresh detector as built by `DriftDetector.__init__` (the reference file,
when present, having populated `reference_stats`). -/
def initDetector (window_size : Nat) (reference_stats : List (String × ℚ)) :
    DriftDetector :=
  ⟨window_size, reference_stats, []⟩

/-- One observation fed to `detect_drift`. -/
def Obs := ℚ × ℚ × Option ℚ

/-- The window sample an observation turns into. -/
def obsSample (o : Obs) : MetricSample := ⟨o.1, o.2.1, o.2.2⟩

/-- Feed a sequence of observations through `detect_drift`, keeping the final
detector state. -/
def runDrift (d : DriftDetector) (obs : List Obs) : DriftDetector :=
  obs.foldl (fun d o => (detect_drift d o.1 o.2.1 o.2.2).2) d

/-- The last `n` entries of a list. -/
def lastN (n : Nat) (l : List α) : List α := l.drop (l.length - n)

/-! ## StandardMetricsTracker.log_inference (src/audit_core/metrics/standard.py) -/

/-- The record assembled by `log_inference` (lines 99-128 of standard.py). -/
structure InferenceRecord where
  request_id : String
  timestamp : String
  model : String
  tokens_in : Nat
  tokens_out : Nat
  hallucination_score : ℚ
  drift_detected : Bool
  response_time_ms : ℚ
  status : String
  fact_consistency : Option ℚ
  cpu_time_sec : ℚ
  memory_delta_bytes : ℚ
  disk_percent : Option ℚ
deriving Repr, DecidableEq

/-- The external behaviour of the `HallucinationDetector`'s embedding model on
a prompt/completion pair: the cosine similarity it returns (`none` = the
embedding call failed) and whether the surrounding scoring raised. Being a
function of the pair, repeated scoring of the same pair is deterministic,
exactly as the real (stateless) detector is. -/
structure ScoreOracle where
  sim : String → String → Option ℚ
  exn : String → String → Bool

/-- `StandardMetricsTracker.log_inference`.  Oracles: `orc` for the scorer,
`tok` for the tokenizer used when token counts are not supplied, and opaque
resource/identity values for the psutil and clock reads. -/
def log_inference (orc : ScoreOracle) (tok : String → Nat) (dd : DriftDetector)
    (prompt completion model : String) (response_time_ms : ℚ)
    (tokens_in tokens_out : Option Nat) (status : String)
    (cpu_time_sec memory_delta_bytes : ℚ) (disk_percent : Option ℚ)
    (request_id timestamp : String) : InferenceRecord × DriftDetector :=
  let hallucination_score :=
    score_hallucination prompt completion (orc.sim prompt completion) (orc.exn prompt completion)
  let drift := detect_drift dd hallucination_score response_time_ms
    ((tokens_out.map (fun n => (n : ℚ))))
  let in_tokens := tokens_in.getD (tok prompt)
  let out_tokens := tokens_out.getD (tok completion)
  let fact_consistency : Option ℚ :=
    if hallucination_score < 8/10 then
      some (get_fact_consistency prompt completion (orc.sim prompt completion)
        (orc.exn prompt completion))
    else none
  (⟨request_id, timestamp, model, in_tokens, out_tokens, hallucination_score,
    drift.1, response_time_ms, status, fact_consistency,
    cpu_time_sec, memory_delta_bytes, disk_percent⟩, drift.2)

/-! ## AuditMiddleware (src/audit_core/integrations/middleware.py)

The middleware is modelled with the default extractors (the lambdas installed
in `__init__`), JSON bodies restricted to the string-valued objects those
extractors read, and an oracle `parseResp` for `json.loads` on the drained
response bytes. -/

/-- The body of an incoming request: a parsed JSON object, or bytes that fail
`request.json()`. -/
inductive ReqBody where
  | obj (fields : List (String × String))
  | malformed
deriving Repr, DecidableEq

structure Request where
  path : String
  method : String
  body : ReqBody
deriving Repr, DecidableEq

/-- A starlette response: status code and the chunks its body iterator
yields. -/
structure Response where
  status : Nat
  chunks : List String
deriving Repr, DecidableEq

/-- The arguments the middleware passes to `metrics_tracker.log_inference`. -/
structure LogArgs where
  model : String
  prompt : String
  completion : String
  status : Nat
deriving Repr, DecidableEq

/-- Python `dict.get` on a parsed JSON object. -/
def jsonGet (fields : List (String × String)) (key : String) : Option String :=
  match fields.find? (fun kv => kv.fst = key) with
  | some kv => some kv.snd
  | none => none

/-- `AuditMiddleware._should_audit_path`: no (or empty) filter audits every
path, otherwise substring match. -/
def should_audit_path (filter : Option String) (path : String) : Bool :=
  match filter with
  | none => true
  | some f => if f = "" then true else strContains path f

/-- Draining `response.body_iterator` (lines 159-161). -/
def drainedBody (r : Response) : String := String.join r.chunks

/-- The response body captured by `dispatch`: drained only for 2xx statuses,
otherwise left as the initial `b""`. -/
def capturedBody (r : Response) : String :=
  if 200 ≤ r.status ∧ r.status < 300 then drainedBody r else ""

/-- `AuditMiddleware._log_audit_info` with the default extractors: returns the
arguments passed to `log_inference`, or `none` when auditing is skipped.
`parseResp` models `json.loads` on the drained bytes; on parse failure the
code wraps the decoded text as `{"response": text}`. -/
def log_audit_info (parseResp : String → Option (List (String × String)))
    (request_body : List (String × String)) (response_body : String)
    (response_status : Nat) : Option LogArgs :=
  if response_body = "" ∨ 400 ≤ response_status then none
  else
    let model_name := (jsonGet request_body "model").getD "default_model"
    let prompt := (jsonGet request_body "prompt").getD ""
    let response_json :=
      match parseResp response_body with
      | some j => j
      | none => [("response", response_body)]
    let completion :=
      (jsonGet response_json "response").getD ((jsonGet response_json "completion").getD "")
    some ⟨model_name, prompt, completion, response_status⟩

/-- `await request.json()` at line 151: `{}` for GET, the parsed object
otherwise, raising (modelled by `Except.error`) on malformed bodies. -/
def parseRequestBody (req : Request) : Except Unit (List (String × String)) :=
  if req.method = "GET" then .ok []
  else
    match req.body with
    | .obj fields => .ok fields
    | .malformed => .error ()

/-- `AuditMiddleware.dispatch`: the response handed back to the caller and the
`log_inference` invocation (if any).  `next` is the response produced by
`call_next`.  A `request.json()` failure is caught by the outer handler,
which returns the downstream response without auditing. -/
def dispatch (filter : Option String)
    (parseResp : String → Option (List (String × String)))
    (req : Request) (next : Response) : Response × Option LogArgs :=
  if ¬ should_audit_path filter req.path then (next, none)
  else
    match parseRequestBody req with
    | .error _ => (next, none)
    | .ok request_body =>
      let response :=
        if 200 ≤ next.status ∧ next.status < 300 then
          Response.mk next.status [drainedBody next]
        else next
      (response, log_audit_info parseResp request_body (capturedBody next) next.status)

/-! ## BaseMetricsTracker persistence (src/audit_core/metrics/base.py) -/

/-- The slice of tracker state `reset_metrics` and `_load_metrics` touch:
the content of `metrics.jsonl` (`none` = file absent), the backup copies
made so far, and the in-memory `self.metrics` cache. -/
structure TrackerState where
  metricsFile : Option String
  backups : List String
  memMetrics : List String
deriving Repr, DecidableEq

/-- `_load_metrics` followed by `pd.DataFrame(self.metrics)`: the non-blank
lines of the file (each line one serialized record); an absent file loads
nothing. -/
def loadMetrics (metricsFile : Option String) : List String :=
  match metricsFile with
  | none => []
  | some content =>
    ((content.toList.splitOnP (fun c => c = '\n')).filter
      (fun line => !line.all (fun c => c.isWhitespace))).map (fun line => String.mk line)

/-- `BaseMetricsTracker.reset_metrics`.  `copyFails` and `writeFails` are the
failure oracles for `shutil.copy2` and `open(metrics_file, 'w')`; every
exception is caught and reported as `false`, leaving the partial effects
performed so far in place. -/
def reset_metrics (st : TrackerState) (copyFails writeFails : Bool) :
    Bool × TrackerState :=
  match st.metricsFile with
  | some content =>
    if copyFails then (false, st)
    else
      let st1 : TrackerState := { st with backups := content :: st.backups }
      if writeFails then (false, st1)
      else (true, { st1 with metricsFile := some "", memMetrics := [] })
  | none =>
    if writeFails then (false, st)
    else (true, { st with metricsFile := some "", memMetrics := [] })

/-! ## StandardMetricsTracker.get_resource_usage_stats (standard.py, 133-186) -/

/-- The fields of a logged record the aggregation reads. -/
structure UsageRecord where
  model : String
  cpu_time_sec : ℚ
  memory_delta_bytes : ℚ
  response_time_ms : ℚ
  hallucination_score : ℚ
deriving Repr, DecidableEq

/-- Per-model entry of the `models` breakdown.  Means are `Option ℚ` with
`none` standing for the IEEE NaN a pandas mean over an empty selection
produces. -/
structure ModelUsage where
  count : Nat
  avg_cpu_time_sec : Option ℚ
  avg_memory_delta_mb : Option ℚ
  avg_response_time_ms : Option ℚ
  avg_hallucination_score : Option ℚ
deriving Repr, DecidableEq

/-- Result of `get_resource_usage_stats`. -/
structure UsageStats where
  count : Nat
  avg_cpu_time_sec : Option ℚ
  avg_memory_delta_mb : Option ℚ
  avg_response_time_ms : Option ℚ
  models : List (String × ModelUsage)
deriving Repr, DecidableEq

/-- `pandas.Series.unique()`: the distinct values in first-appearance order. -/
def pdUnique (l : List String) : List String :=
  l.foldl (fun acc m => if m ∈ acc then acc else acc ++ [m]) []

/-- The aggregate block computed for a selection of records. -/
def usageOf (sel : List UsageRecord) : ModelUsage :=
  ⟨sel.length,
   meanOpt (sel.map (fun r => r.cpu_time_sec)),
   (meanOpt (sel.map (fun r => r.memory_delta_bytes))).map (fun m => m / (1024 * 1024)),
   meanOpt (sel.map (fun r => r.response_time_ms)),
   meanOpt (sel.map (fun r => r.hallucination_score))⟩

/-- `StandardMetricsTracker.get_resource_usage_stats`: `records` is the loaded
dataframe, `model` the optional filter (a Python empty string is falsy and
disables the filter, like `None`). -/
def get_resource_usage_stats (records : List UsageRecord) (model : Option String) :
    UsageStats :=
  if records = [] then ⟨0, some 0, some 0, some 0, []⟩
  else
    let df_filtered :=
      match model with
      | some m => if m = "" then records else records.filter (fun r => r.model = m)
      | none => records
    let top := usageOf df_filtered
    ⟨top.count, top.avg_cpu_time_sec, top.avg_memory_delta_mb, top.avg_response_time_ms,
     (pdUnique (records.map (fun r => r.model))).map
       (fun m => (m, usageOf (records.filter (fun r => r.model = m))))⟩

/-! ## Spec-side auxiliary definitions -/

/-- Number of occurrences of `needle` in `hay` (distinct starting positions),
the claim's reading of "0.1 added per occurrence". -/
def occurrenceCount (hay needle : String) : Nat :=
  ((List.range (hay.toList.length + 1)).filter
    (fun i => needle.toList.isPrefixOf (hay.toList.drop i))).length

/-- Total number of occurrences of hedging phrases in a lower-cased
completion, repeated occurrences of the same phrase included. -/
def totalOccurrences (completion_lower : String) : Nat :=
  (hallucination_indicators.map (fun ind => occurrenceCount completion_lower ind)).sum

/-! ## Helper lemmas -/

theorem heuristic_score_range (p c : String) (sim : Option ℚ) :
    0 ≤ heuristic_score p c sim ∧ heuristic_score p c sim ≤ 1 := by
  simp only [heuristic_score]
  exact ⟨le_max_left 0 _, max_le (by norm_num) (min_le_left 1 _)⟩

theorem hesitation_foldl (cl : String) (l : List String) (acc : ℚ) :
    l.foldl (fun acc ind => if strContains cl ind then acc + 1/10 else acc) acc
      = acc + ((l.filter (fun ind => strContains cl ind)).length : ℚ) * (1/10) := by
  induction l generalizing acc with
  | nil => simp
  | cons x xs ih =>
    simp only [List.foldl_cons, List.filter_cons]
    by_cases h : strContains cl x
    · rw [if_pos h, if_pos h, ih]
      push_cast [List.length_cons]
      ring
    · rw [if_neg h, if_neg h, ih]

theorem detect_drift_snd (d : DriftDetector) (h rt : ℚ) (tc : Option ℚ) :
    (detect_drift d h rt tc).2 =
      { d with current_window := pushSample d.window_size d.current_window ⟨h, rt, tc⟩ } := by
  simp only [detect_drift]
  split <;> rfl

theorem pushSample_lastN (W : Nat) (l : List MetricSample) (s : MetricSample) :
    pushSample W (lastN W l) s = lastN W (l ++ [s]) := by
  have hlast : (lastN W l).length = l.length - (l.length - W) := by
    unfold lastN; exact List.length_drop _ _
  have hlen : (l ++ [s]).length = l.length + 1 := by
    rw [List.length_append]; rfl
  unfold pushSample
  by_cases h : W ≤ l.length
  · rw [if_pos (by rw [List.length_append, hlast]; simp; omega)]
    unfold lastN
    rw [← List.drop_append_of_le_length (by omega), List.tail_drop]
    congr 1
    omega
  · rw [if_neg (by rw [List.length_append, hlast]; simp; omega)]
    unfold lastN
    have h1 : l.length - W = 0 := by omega
    have h2 : (l ++ [s]).length - W = 0 := by omega
    rw [h1, h2, List.drop_zero, List.drop_zero]

theorem runDrift_append (d : DriftDetector) (obs : List Obs) (o : Obs) :
    runDrift d (obs ++ [o]) = (detect_drift (runDrift d obs) o.1 o.2.1 o.2.2).2 := by
  unfold runDrift
  rw [List.foldl_append]
  rfl

theorem runDrift_window_size (d : DriftDetector) (obs : List Obs) :
    (runDrift d obs).window_size = d.window_size := by
  induction obs generalizing d with
  | nil => rfl
  | cons o os ih =>
    show (runDrift ((detect_drift d o.1 o.2.1 o.2.2).2) os).window_size = d.window_size
    rw [ih, detect_drift_snd]

theorem runDrift_reference (d : DriftDetector) (obs : List Obs) :
    (runDrift d obs).reference_stats = d.reference_stats := by
  induction obs generalizing d with
  | nil => rfl
  | cons o os ih =>
    show (runDrift ((detect_drift d o.1 o.2.1 o.2.2).2) os).reference_stats = d.reference_stats
    rw [ih, detect_drift_snd]

theorem runDrift_window (W : Nat) (ref : List (String × ℚ)) (obs : List Obs) :
    (runDrift (initDetector W ref) obs).current_window = lastN W (obs.map obsSample) := by
  induction obs using List.reverseRecOn with
  | nil => simp [runDrift, initDetector, lastN]
  | append_singleton os o ih =>
    rw [runDrift_append, detect_drift_snd]
    show pushSample (runDrift (initDetector W ref) os).window_size
        (runDrift (initDetector W ref) os).current_window ⟨o.1, o.2.1, o.2.2⟩
      = lastN W (List.map obsSample (os ++ [o]))
    rw [runDrift_window_size]
    show pushSample W (runDrift (initDetector W ref) os).current_window ⟨o.1, o.2.1, o.2.2⟩
      = lastN W (List.map obsSample (os ++ [o]))
    rw [ih, pushSample_lastN, List.map_append]
    rfl

theorem pushSample_length (W : Nat) (w : List MetricSample) (s : MetricSample) :
    (pushSample W w s).length = if W < w.length + 1 then w.length else w.length + 1 := by
  unfold pushSample
  simp only [List.length_append, List.length_singleton]
  split
  · simp only [List.length_tail, List.length_append, List.length_singleton]
    omega
  · simp only [List.length_append, List.length_singleton]

theorem pushSample_map_eq (f : MetricSample → ℚ) (W : Nat) (w : List MetricSample)
    (s s' : MetricSample) (hf : f s = f s') :
    (pushSample W w s).map f = (pushSample W w s').map f := by
  unfold pushSample
  simp only [List.length_append, List.length_singleton]
  split
  · rw [List.map_tail, List.map_tail, List.map_append, List.map_append,
      List.map_singleton, List.map_singleton, hf]
  · rw [List.map_append, List.map_append, List.map_singleton, List.map_singleton, hf]

theorem is_metric_drifting_abs (c r t : ℚ) :
    is_metric_drifting (some c) r t false = true ↔ (r ≠ 0 ∧ |c - r| / r > t) := by
  unfold is_metric_drifting
  by_cases hr : r = 0
  · simp [hr]
  · simp [hr]

theorem is_metric_drifting_time (c r t : ℚ) :
    is_metric_drifting (some c) r t true = true ↔ (r ≠ 0 ∧ (c - r) / r > t) := by
  unfold is_metric_drifting
  by_cases hr : r = 0
  · simp [hr]
  · simp [hr]

/-! ## Claim theorems -/

/-- C5 (confirmed): for all prompt/completion strings, every embedding
outcome and every exception outcome, `score_hallucination` lies in [0,1],
an internal exception yields the default 0.5, and `get_fact_consistency`
lies in [0,1]. -/
theorem score_hallucination_range (p c : String) (sim : Option ℚ) (exn : Bool) :
    (0 ≤ score_hallucination p c sim exn ∧ score_hallucination p c sim exn ≤ 1) ∧
    (exn = true → score_hallucination p c sim exn = 1/2) ∧
    (0 ≤ get_fact_consistency p c sim exn ∧ get_fact_consistency p c sim exn ≤ 1) := by
  have hr : 0 ≤ score_hallucination p c sim exn ∧ score_hallucination p c sim exn ≤ 1 := by
    unfold score_hallucination
    split
    · norm_num
    · exact heuristic_score_range p c sim
  refine ⟨hr, fun h => by simp [score_hallucination, h], ?_⟩
  unfold get_fact_consistency
  constructor <;> linarith [hr.1, hr.2]

/-- Witness for C5: a concrete evaluation through the theorem, exception
branch included. -/
theorem score_hallucination_range_witness :
    score_hallucination "a" "b" none true = 1/2 :=
  (score_hallucination_range "a" "b" none true).2.1 rfl

/-- C2 (corrected): the hesitation component adds 0.1 per *distinct* lexicon
phrase contained in the case-folded completion (a membership test, not an
occurrence count), capped at 0.5. -/
theorem hesitation_distinct_phrases (completion : String) :
    hesitationScore (pyLower completion) =
      min (((hallucination_indicators.filter
              (fun ind => strContains (pyLower completion) ind)).length : ℚ) * (1/10))
          (1/2) := by
  unfold hesitationScore
  rw [hesitation_foldl]
  norm_num

/-- Counterexample for C2 as stated: "Perhaps perhaps" contains two
occurrences of the phrase "perhaps", so the claimed per-occurrence rule gives
0.2, but the code's membership test adds 0.1 only once. -/
theorem hesitation_occurrences_cex :
    hesitationScore (pyLower "Perhaps perhaps") = 1/10 ∧
    min ((totalOccurrences (pyLower "Perhaps perhaps") : ℚ) * (1/10)) (1/2) = 2/10 ∧
    (1/10 : ℚ) ≠ 2/10 := by
  refine ⟨?_, ?_, by norm_num⟩
  · unfold hesitationScore
    rw [hesitation_foldl]
    have hcount : ((hallucination_indicators.filter
        (fun ind => strContains (pyLower "Perhaps perhaps") ind)).length) = 1 := rfl
    rw [hcount]
    rw [min_eq_left (by norm_num)]
    norm_num
  · have hocc : totalOccurrences (pyLower "Perhaps perhaps") = 2 := rfl
    rw [hocc]
    rw [min_eq_left (by norm_num)]
    norm_num


/-- C6 (confirmed): every `detect_drift` call keeps the window at or below
the configured capacity W, and the eviction is FIFO: after W+1 observations
from a fresh detector the window is exactly the last W samples, i.e. the
first observation has been evicted. -/

theorem drift_window_capacity_fifo :
    (∀ (d : DriftDetector) (h rt : ℚ) (tc : Option ℚ),
        d.current_window.length ≤ d.window_size →
        ((detect_drift d h rt tc).2).current_window.length ≤ d.window_size) ∧
    (∀ (W : Nat) (ref : List (String × ℚ)) (obs : List Obs),
        obs.length = W + 1 →
        (runDrift (initDetector W ref) obs).current_window = (obs.map obsSample).tail) := by
  constructor
  · intro d h rt tc hlen
    rw [detect_drift_snd]
    show (pushSample d.window_size d.current_window ⟨h, rt, tc⟩).length ≤ d.window_size
    unfold pushSample
    by_cases hc : d.window_size < (d.current_window ++ [(⟨h, rt, tc⟩ : MetricSample)]).length
    · rw [if_pos hc]
      simp only [List.length_tail, List.length_append, List.length_singleton] at hc ⊢
      omega
    · rw [if_neg hc]
      simp only [List.length_append, List.length_singleton] at hc ⊢
      omega
  · intro W ref obs hobs
    rw [runDrift_window]
    unfold lastN
    rw [List.length_map, hobs]
    have h1 : W + 1 - W = 1 := by omega
    rw [h1, List.drop_one]

/-- Witness for C6 at concrete capacities 2 and 1. -/
theorem drift_window_capacity_fifo_witness :
    ((detect_drift (initDetector 2 []) 1 1 none).2).current_window.length ≤ 2 ∧
    (runDrift (initDetector 1 []) [((1:ℚ), (2:ℚ), (none : Option ℚ)), ((3:ℚ), (4:ℚ), none)]).current_window
      = ([((1:ℚ), (2:ℚ), (none : Option ℚ)), ((3:ℚ), (4:ℚ), none)].map obsSample).tail :=
  ⟨drift_window_capacity_fifo.1 (initDetector 2 []) 1 1 none (by decide),
   drift_window_capacity_fifo.2 1 [] _ rfl⟩

/-- C7 (confirmed): from a fresh detector, a `detect_drift` call made while
fewer than W samples have been observed (current one included), or while no
reference stats are loaded, returns false regardless of the values, and the
new sample is nonetheless appended to the window with FIFO eviction. -/
theorem detect_drift_insufficient_false (W : Nat) (ref : List (String × ℚ))
    (obs : List Obs) (o : Obs)
    (hins : obs.length + 1 < W ∨ ref = []) :
    (detect_drift (runDrift (initDetector W ref) obs) o.1 o.2.1 o.2.2).1 = false ∧
    ((detect_drift (runDrift (initDetector W ref) obs) o.1 o.2.1 o.2.2).2).current_window
      = lastN W (obs.map obsSample ++ [obsSample o]) := by
  have hw : (runDrift (initDetector W ref) obs).current_window
      = lastN W (obs.map obsSample) := runDrift_window W ref obs
  have hws : (runDrift (initDetector W ref) obs).window_size = W :=
    runDrift_window_size _ _
  have hrs : (runDrift (initDetector W ref) obs).reference_stats = ref :=
    runDrift_reference _ _
  have hpush : (pushSample (runDrift (initDetector W ref) obs).window_size
      (runDrift (initDetector W ref) obs).current_window (obsSample o))
      = lastN W (obs.map obsSample ++ [obsSample o]) := by
    rw [hws, hw, pushSample_lastN]
  have hC : ((pushSample (runDrift (initDetector W ref) obs).window_size
      (runDrift (initDetector W ref) obs).current_window
      (⟨o.1, o.2.1, o.2.2⟩ : MetricSample)).length
      < (runDrift (initDetector W ref) obs).window_size)
      ∨ (runDrift (initDetector W ref) obs).reference_stats = [] := by
    rcases hins with hins | hins
    · left
      rw [hws, hw, pushSample_lastN]
      unfold lastN
      rw [List.length_drop, List.length_append, List.length_map, List.length_singleton]
      omega
    · right
      rw [hrs, hins]
  constructor
  · simp only [detect_drift]
    rw [if_pos hC]
  · rw [detect_drift_snd]
    show pushSample (runDrift (initDetector W ref) obs).window_size
        (runDrift (initDetector W ref) obs).current_window ⟨o.1, o.2.1, o.2.2⟩
      = lastN W (obs.map obsSample ++ [obsSample o])
    exact hpush

/-- Witness for C7: first observation with W = 3 and loaded reference stats. -/
theorem detect_drift_insufficient_false_witness :
    (detect_drift (runDrift (initDetector 3 [("hallucination_score_mean", (1:ℚ))]) [])
        1 1 none).1 = false :=
  (detect_drift_insufficient_false 3 [("hallucination_score_mean", (1:ℚ))] []
      ((1:ℚ), (1:ℚ), (none : Option ℚ)) (Or.inl (by decide))).1

/-- C1 (amended, see the counterexample): once the window is full (taking the
appended sample into account) and the reference stats are non-empty,
`detect_drift` returns exactly the disjunction of the two relative-change
tests — hallucination score two-sided at 0.2, response time increase-only at
0.5, each disabled when its reference mean is 0 — and the result is
independent of the `token_count` argument: the tracked token count is never
evaluated against the reference. -/
theorem detect_drift_full_or (d : DriftDetector) (h rt : ℚ) (tc tc' : Option ℚ)
    (hpos : 1 ≤ d.window_size)
    (hfull : d.window_size ≤ d.current_window.length + 1)
    (href : d.reference_stats ≠ []) :
    ((detect_drift d h rt tc).1 = true ↔
      ((refGet d.reference_stats "hallucination_score_mean" ≠ 0 ∧
        |((pushSample d.window_size d.current_window ⟨h, rt, tc⟩).map
              (fun s => s.hallucination_score)).sum
            / ((pushSample d.window_size d.current_window ⟨h, rt, tc⟩).length : ℚ)
          - refGet d.reference_stats "hallucination_score_mean"|
          / refGet d.reference_stats "hallucination_score_mean" > 2/10) ∨
       (refGet d.reference_stats "response_time_ms_mean" ≠ 0 ∧
        (((pushSample d.window_size d.current_window ⟨h, rt, tc⟩).map
              (fun s => s.response_time_ms)).sum
            / ((pushSample d.window_size d.current_window ⟨h, rt, tc⟩).length : ℚ)
          - refGet d.reference_stats "response_time_ms_mean")
          / refGet d.reference_stats "response_time_ms_mean" > 5/10))) ∧
    (detect_drift d h rt tc).1 = (detect_drift d h rt tc').1 := by
  have hguard : ∀ tcx : Option ℚ,
      ¬ ((pushSample d.window_size d.current_window ⟨h, rt, tcx⟩).length < d.window_size
          ∨ d.reference_stats = []) := by
    intro tcx
    rw [pushSample_length]
    push_neg
    refine ⟨?_, href⟩
    split <;> omega
  have hne : ∀ (tcx : Option ℚ) (f : MetricSample → ℚ),
      (pushSample d.window_size d.current_window ⟨h, rt, tcx⟩).map f ≠ [] := by
    intro tcx f hmap
    have hl := congrArg List.length hmap
    rw [List.length_map, pushSample_length] at hl
    simp only [List.length_nil] at hl
    revert hl
    split <;> omega
  have hmean : ∀ (tcx : Option ℚ) (f : MetricSample → ℚ),
      meanOpt ((pushSample d.window_size d.current_window ⟨h, rt, tcx⟩).map f)
        = some (((pushSample d.window_size d.current_window ⟨h, rt, tcx⟩).map f).sum
            / ((pushSample d.window_size d.current_window ⟨h, rt, tcx⟩).length : ℚ)) := by
    intro tcx f
    unfold meanOpt
    rw [if_neg (hne tcx f), List.length_map]
  have hfst : ∀ tcx : Option ℚ, (detect_drift d h rt tcx).1 =
      (is_metric_drifting
        (meanOpt ((pushSample d.window_size d.current_window ⟨h, rt, tcx⟩).map
          (fun s => s.hallucination_score)))
        (refGet d.reference_stats "hallucination_score_mean") (2/10) false
       || is_metric_drifting
        (meanOpt ((pushSample d.window_size d.current_window ⟨h, rt, tcx⟩).map
          (fun s => s.response_time_ms)))
        (refGet d.reference_stats "response_time_ms_mean") (5/10) true) := by
    intro tcx
    simp only [detect_drift]
    rw [if_neg (hguard tcx)]
  constructor
  · rw [hfst tc, Bool.or_eq_true, hmean tc, hmean tc,
      is_metric_drifting_abs, is_metric_drifting_time]
  · rw [hfst tc, hfst tc', hmean tc, hmean tc, hmean tc', hmean tc',
      pushSample_map_eq (fun s => s.hallucination_score) d.window_size d.current_window
        (⟨h, rt, tc⟩ : MetricSample) (⟨h, rt, tc'⟩ : MetricSample) rfl,
      pushSample_map_eq (fun s => s.response_time_ms) d.window_size d.current_window
        (⟨h, rt, tc⟩ : MetricSample) (⟨h, rt, tc'⟩ : MetricSample) rfl,
      pushSample_length, pushSample_length]



/-- Detector state for the C1 counterexample: capacity-1 window, reference
stats whose token-count mean is 10 and whose other means are 0. -/
def tokenCexDetector : DriftDetector :=
  ⟨1, [("hallucination_score_mean", 0), ("response_time_ms_mean", 0),
      ("token_count_mean", 10)], []⟩

/-- Counterexample for C1 as stated: with a full window whose only sample has
token count 100 against a reference token-count mean of 10, the token-count
relative change (9.0) exceeds both thresholds, yet `detect_drift` returns
false because the other two metrics have reference mean 0 and `token_count`
is never evaluated. -/
theorem detect_drift_ignores_token_cex :
    (detect_drift tokenCexDetector 0 0 (some 100)).1 = false ∧
    (detect_drift tokenCexDetector 0 0 (some 100)).2.current_window.filterMap
        (fun s => s.token_count) = [100] ∧
    refGet tokenCexDetector.reference_stats "token_count_mean" = 10 ∧
    ((100 : ℚ) - 10) / 10 > 5/10 ∧ |(100 : ℚ) - 10| / 10 > 2/10 :=
  ⟨rfl, rfl, rfl, by norm_num, by rw [show |(100 : ℚ) - 10| = 90 by norm_num]; norm_num⟩

/-- Witness for C1 (amended): token-count independence at a concrete state. -/
theorem detect_drift_full_or_witness :
    (detect_drift ⟨1, [("hallucination_score_mean", 1), ("response_time_ms_mean", 100)], []⟩
        2 100 none).1
      = (detect_drift ⟨1, [("hallucination_score_mean", 1), ("response_time_ms_mean", 100)], []⟩
        2 100 (some 5)).1 :=
  (detect_drift_full_or
      ⟨1, [("hallucination_score_mean", 1), ("response_time_ms_mean", 100)], []⟩
      2 100 none (some 5) (by decide) (by decide) (by simp)).2

/-- C8 (confirmed): the record returned by `log_inference` carries
`fact_consistency` iff its hallucination score is strictly below 0.8, and the
value is then 1 minus that same score (the detector being deterministic on a
prompt/completion pair, the recomputation inside `get_fact_consistency`
yields the recorded score). -/
theorem fact_consistency_presence (orc : ScoreOracle) (tok : String → Nat)
    (dd : DriftDetector) (prompt completion model : String) (response_time_ms : ℚ)
    (tokens_in tokens_out : Option Nat) (status : String)
    (cpu mem : ℚ) (disk : Option ℚ) (rid ts : String) :
    ((log_inference orc tok dd prompt completion model response_time_ms
        tokens_in tokens_out status cpu mem disk rid ts).1).fact_consistency =
      if ((log_inference orc tok dd prompt completion model response_time_ms
          tokens_in tokens_out status cpu mem disk rid ts).1).hallucination_score < 8/10
      then some (1 - ((log_inference orc tok dd prompt completion model response_time_ms
          tokens_in tokens_out status cpu mem disk rid ts).1).hallucination_score)
      else none := by
  simp only [log_inference, get_fact_consistency]

/-- C3 (confirmed): whenever the response status is at least 400 or the
captured response body is empty, `dispatch` never invokes `log_inference` —
no record is produced. -/
theorem no_log_on_error_or_empty (filter : Option String)
    (parseResp : String → Option (List (String × String)))
    (req : Request) (next : Response)
    (herr : 400 ≤ next.status ∨ capturedBody next = "") :
    (dispatch filter parseResp req next).2 = none := by
  unfold dispatch
  split
  · rfl
  · cases hpb : parseRequestBody req with
    | error e => rfl
    | ok rb =>
      simp only []
      unfold log_audit_info
      rcases herr with herr | herr
      · rw [if_pos (Or.inr herr)]
      · rw [if_pos (Or.inl herr)]

/-- Witness for C3: a 500 response is not audited. -/
theorem no_log_on_error_or_empty_witness :
    (dispatch none (fun _ => none) ⟨"/x", "GET", .obj []⟩ ⟨500, ["boom"]⟩).2 = none :=
  no_log_on_error_or_empty none (fun _ => none) ⟨"/x", "GET", .obj []⟩ ⟨500, ["boom"]⟩
    (Or.inl (by decide))

/-- Counterexample for C4 as stated: a POST whose body fails to parse, on an
audited path with a successful (200, non-empty-body) downstream response, is
not audited at all — `request.json()` raises before `call_next`, the outer
handler swallows it and returns the downstream response, and no fallback
record with an empty prompt is ever logged. -/
theorem malformed_body_skips_audit_cex :
    (dispatch none (fun _ => none) ⟨"/api/x", "POST", .malformed⟩ ⟨200, ["ok"]⟩).2 = none ∧
    (dispatch none (fun _ => none) ⟨"/api/x", "POST", .malformed⟩ ⟨200, ["ok"]⟩).1
      = ⟨200, ["ok"]⟩ :=
  ⟨rfl, rfl⟩

/-- C4 (amended, see the counterexample): the caller always receives a
response with the downstream status; when the parsed request body lacks the
prompt/model fields the defaults (empty prompt, generic model name) are used;
and when the captured response body fails to parse, that opaque text is used
as the completion.  A request body that itself fails to parse skips auditing
entirely instead of falling back to defaults. -/
theorem audit_fallback_defaults (filter : Option String)
    (parseResp : String → Option (List (String × String)))
    (req : Request) (next : Response) :
    ((dispatch filter parseResp req next).1.status = next.status) ∧
    (∀ fields a, parseRequestBody req = .ok fields →
        jsonGet fields "prompt" = none → jsonGet fields "model" = none →
        (dispatch filter parseResp req next).2 = some a →
        a.prompt = "" ∧ a.model = "default_model") ∧
    (∀ a, parseResp (capturedBody next) = none →
        (dispatch filter parseResp req next).2 = some a →
        a.completion = capturedBody next) := by
  refine ⟨?_, ?_, ?_⟩
  · unfold dispatch
    split
    · rfl
    · cases hpb : parseRequestBody req with
      | error e => rfl
      | ok rb =>
        simp only []
        split
        · rfl
        · rfl
  · intro fields a hpb hp hm hd
    unfold dispatch at hd
    split at hd
    · exact absurd hd (by simp)
    · rw [hpb] at hd
      simp only [] at hd
      unfold log_audit_info at hd
      split at hd
      · exact absurd hd (by simp)
      · rw [Option.some_inj] at hd
        subst hd
        constructor
        · show (jsonGet fields "prompt").getD "" = ""
          rw [hp]
          rfl
        · show (jsonGet fields "model").getD "default_model" = "default_model"
          rw [hm]
          rfl
  · intro a hparse hd
    unfold dispatch at hd
    split at hd
    · exact absurd hd (by simp)
    · cases hpb : parseRequestBody req with
      | error e =>
        rw [hpb] at hd
        exact absurd hd (by simp)
      | ok rb =>
        rw [hpb] at hd
        simp only [] at hd
        unfold log_audit_info at hd
        split at hd
        · exact absurd hd (by simp)
        · rw [hparse] at hd
          rw [Option.some_inj] at hd
          subst hd
          show (jsonGet [("response", capturedBody next)] "response").getD
              ((jsonGet [("response", capturedBody next)] "completion").getD "")
            = capturedBody next
          rfl

/-- Witness for C4 (amended): a GET request with an unparseable 200 response
is logged with the default model name and empty prompt. -/
theorem audit_fallback_defaults_witness :
    (LogArgs.mk "default_model" "" "ok" 200).prompt = ""
      ∧ (LogArgs.mk "default_model" "" "ok" 200).model = "default_model" :=
  (audit_fallback_defaults none (fun _ => none) ⟨"/x", "GET", .obj []⟩
      ⟨200, ["ok"]⟩).2.1 [] ⟨"default_model", "", "ok", 200⟩ rfl rfl rfl rfl

theorem pdUnique_mem (l : List String) (x : String) : x ∈ pdUnique l ↔ x ∈ l := by
  unfold pdUnique
  suffices hgen : ∀ acc : List String,
      x ∈ l.foldl (fun acc m => if m ∈ acc then acc else acc ++ [m]) acc
        ↔ x ∈ acc ∨ x ∈ l by
    rw [hgen []]
    simp
  induction l with
  | nil => intro acc; simp
  | cons y ys ih =>
    intro acc
    simp only [List.foldl_cons]
    rw [ih]
    by_cases hy : y ∈ acc
    · rw [if_pos hy]
      simp only [List.mem_cons]
      have hxy : x = y → x ∈ acc := fun hx => hx ▸ hy
      tauto
    · rw [if_neg hy]
      simp only [List.mem_append, List.mem_singleton, List.mem_cons]
      tauto

/-- C9 (confirmed): `reset_metrics` is a total function of the state and the
two failure oracles — every exception is caught and reported as `false`; it
succeeds exactly when no operation fails; on success the file is truncated to
empty, the in-memory cache is cleared, any pre-existing content has first
been copied to a backup, and the dataframe loaded afterwards is empty (also
when the log was empty or absent); on failure the file and cache are left
as they were. -/
theorem reset_metrics_spec (st : TrackerState) (copyFails writeFails : Bool) :
    ((reset_metrics st copyFails writeFails).1 = true ↔
        (writeFails = false ∧ (copyFails = false ∨ st.metricsFile = none))) ∧
    ((reset_metrics st copyFails writeFails).1 = true →
        (reset_metrics st copyFails writeFails).2.metricsFile = some "" ∧
        (reset_metrics st copyFails writeFails).2.memMetrics = [] ∧
        loadMetrics (reset_metrics st copyFails writeFails).2.metricsFile = []) ∧
    (∀ c, st.metricsFile = some c → (reset_metrics st copyFails writeFails).1 = true →
        c ∈ (reset_metrics st copyFails writeFails).2.backups) ∧
    ((reset_metrics st copyFails writeFails).1 = false →
        (reset_metrics st copyFails writeFails).2.metricsFile = st.metricsFile ∧
        (reset_metrics st copyFails writeFails).2.memMetrics = st.memMetrics) := by
  have hload : loadMetrics (some "") = [] := rfl
  rcases st with ⟨mf, bk, mm⟩
  cases mf <;> cases copyFails <;> cases writeFails <;>
    simp [reset_metrics, hload]

/-- Witness for C9: resetting a one-line log backs it up, truncates it, and
leaves an empty dataframe. -/
theorem reset_metrics_spec_witness :
    (reset_metrics ⟨some "r1", [], ["m"]⟩ false false).2.metricsFile = some "" ∧
    "r1" ∈ (reset_metrics ⟨some "r1", [], ["m"]⟩ false false).2.backups ∧
    loadMetrics (reset_metrics ⟨some "r1", [], ["m"]⟩ false false).2.metricsFile = [] :=
  ⟨((reset_metrics_spec ⟨some "r1", [], ["m"]⟩ false false).2.1 rfl).1,
   (reset_metrics_spec ⟨some "r1", [], ["m"]⟩ false false).2.2.1 "r1" rfl rfl,
   ((reset_metrics_spec ⟨some "r1", [], ["m"]⟩ false false).2.1 rfl).2.2⟩

/-- C10 (confirmed): on a non-empty log, filtering by a model restricts the
top-level count and averages to that model's records, the per-model breakdown
nevertheless covers exactly the models present in the whole log, and when the
filter matches nothing the count is 0 while the top-level averages are the
NaN of an empty mean (modelled as `none`), not zero. -/
theorem resource_usage_stats_filter (records : List UsageRecord) (m : String)
    (hne : records ≠ []) (hm : m ≠ "") :
    ((get_resource_usage_stats records (some m)).count
        = (records.filter (fun r => r.model = m)).length) ∧
    ((get_resource_usage_stats records (some m)).avg_cpu_time_sec
        = meanOpt ((records.filter (fun r => r.model = m)).map (fun r => r.cpu_time_sec))) ∧
    ((get_resource_usage_stats records (some m)).avg_response_time_ms
        = meanOpt ((records.filter (fun r => r.model = m)).map (fun r => r.response_time_ms))) ∧
    (∀ name, (∃ r ∈ records, r.model = name) ↔
        name ∈ (get_resource_usage_stats records (some m)).models.map Prod.fst) ∧
    ((records.filter (fun r => r.model = m)) = [] →
        (get_resource_usage_stats records (some m)).count = 0 ∧
        (get_resource_usage_stats records (some m)).avg_cpu_time_sec = none ∧
        (get_resource_usage_stats records (some m)).avg_memory_delta_mb = none ∧
        (get_resource_usage_stats records (some m)).avg_response_time_ms = none) := by
  have hstats : get_resource_usage_stats records (some m) =
      ⟨(records.filter (fun r => r.model = m)).length,
       meanOpt ((records.filter (fun r => r.model = m)).map (fun r => r.cpu_time_sec)),
       (meanOpt ((records.filter (fun r => r.model = m)).map
          (fun r => r.memory_delta_bytes))).map (fun x => x / (1024 * 1024)),
       meanOpt ((records.filter (fun r => r.model = m)).map (fun r => r.response_time_ms)),
       (pdUnique (records.map (fun r => r.model))).map
         (fun name => (name, usageOf (records.filter (fun r => r.model = name))))⟩ := by
    simp only [get_resource_usage_stats, if_neg hne, if_neg hm]
    rfl
  refine ⟨by rw [hstats], by rw [hstats], by rw [hstats], ?_, ?_⟩
  · intro name
    rw [hstats]
    simp only [List.map_map]
    have hfst : (Prod.fst ∘ fun name =>
        (name, usageOf (records.filter (fun r => r.model = name)))) = id := rfl
    rw [hfst, List.map_id, pdUnique_mem]
    constructor
    · rintro ⟨r, hr, hmod⟩
      exact List.mem_map.mpr ⟨r, hr, hmod⟩
    · intro hmem
      rcases List.mem_map.mp hmem with ⟨r, hr, hmod⟩
      exact ⟨r, hr, hmod⟩
  · intro hsel
    rw [hstats, hsel]
    refine ⟨rfl, rfl, rfl, rfl⟩

/-- Witness for C10: filtering a one-record log by an absent model name. -/
theorem resource_usage_stats_filter_witness :
    (get_resource_usage_stats [⟨"a", 1, 2, 3, 4⟩] (some "b")).count = 0 ∧
    (get_resource_usage_stats [⟨"a", 1, 2, 3, 4⟩] (some "b")).avg_cpu_time_sec = none ∧
    (get_resource_usage_stats [⟨"a", 1, 2, 3, 4⟩] (some "b")).avg_response_time_ms = none :=
  ⟨((resource_usage_stats_filter [⟨"a", 1, 2, 3, 4⟩] "b" (by simp) (by decide)).2.2.2.2 rfl).1,
   ((resource_usage_stats_filter [⟨"a", 1, 2, 3, 4⟩] "b" (by simp) (by decide)).2.2.2.2 rfl).2.1,
   ((resource_usage_stats_filter [⟨"a", 1, 2, 3, 4⟩] "b" (by simp) (by decide)).2.2.2.2 rfl).2.2.2⟩

end AuditCore
